import Mathlib

/-!
Shallow embedding of the AI-Driven Custom Home Design Assistant
(`src/app.py`) and proofs of its specified properties.

The program is a single-session form application.  Its logic consists of:
a cache keyed by concatenated input strings (`get_cache_key`,
`generate_design_idea`), a deterministic Markdown fallback used when the
upstream text-generation call fails, a static style-to-image lookup
(`fetch_design_image`), a live image search (`fetch_unsplash_images`),
room-detail list management with deferred deletion flags, and the
submission handler in `main`.

External effects are modelled explicitly:
* the generative-text service (`model.generate_content`) is a parameter
  `model : String → Except String String`; `.error e` models a raised
  exception with message `e`, `.ok t` models a response whose `.text` is
  `t` (an empty `t` models an empty/absent response text);
* the image-search HTTP call is a parameter returning
  `Except String (Option (List String))`; `.error` models an exception,
  `.ok none` a JSON body without a `"results"` field, and
  `.ok (some urls)` a body whose results carry the given regular URLs;
* the number of upstream invocations is returned alongside each result,
  so "no outbound request occurs" is the statement `upstream_calls = 0`;
* user-facing banners (`st.error` / `st.warning`) are returned as
  `Option String` values.
-/

/-- Association-list model of the Python dict `st.session_state.design_cache`:
`cacheLookup c k` is `c[k]` if present (`d[k] = v` is modelled by prepending,
which shadows older bindings exactly as dict assignment overwrites). -/
def cacheLookup : List (String × String) → String → Option String
  | [], _ => none
  | (k, v) :: rest, key => if k = key then some v else cacheLookup rest key

/-- `get_cache_key` from app.py line 30–31: the f-string
`f"{style}_{size}_{rooms}_{preferences}"`. -/
def get_cache_key (style size rooms preferences : String) : String :=
  style ++ "_" ++ size ++ "_" ++ rooms ++ "_" ++ preferences

/-- The prompt built in `generate_design_idea` (app.py lines 38–51),
including the `preferences or "None"` defaulting. -/
def build_prompt (style size rooms preferences : String) : String :=
  "Create a detailed custom home design plan with:\n    - Style: " ++ style ++
  "\n    - Size: " ++ size ++
  "\n    - Rooms: " ++ rooms ++
  "\n    - Preferences: " ++ (if preferences = "" then "None" else preferences) ++
  "\n    \n    Include:\n    1. Design concept overview\n    2. Layout with room sizes\n    3. Furniture recommendations\n    4. Materials and finishes\n    5. Style-specific tips\n    \n    Format in Markdown with clear headings."

/-- Python `str.lower()`: per-character lowercasing.  (Extensionally equal
to `String.toLower`, but defined by structural recursion over the character
list so that the kernel can evaluate it.) -/
def pyLower (s : String) : String :=
  ⟨s.data.map Char.toLower⟩

/-- The fallback Markdown document returned by `generate_design_idea`
(app.py lines 62–79), a pure function of the local inputs. -/
def fallback_content (style size rooms : String) : String :=
  "\n    ## " ++ style ++ " Home Design: " ++ size ++ ", " ++ rooms ++
  " Bedrooms\n    \n    **Overview:**\n    This " ++ pyLower style ++
  " home features " ++ rooms ++ " rooms across " ++ size ++
  ".\n    \n    **Layout:**\n    - Open living area\n    - " ++ rooms ++
  " bedrooms\n    - Modern amenities\n    \n    **Design Tips:**\n    - Use natural materials\n    - Large windows for light\n    - Functional spaces\n    \n    Note: Custom design unavailable now. Try again later.\n    "

/-- Result of one call to `generate_design_idea`: the returned text, the
design cache after the call, how many upstream text-generation calls were
issued (0 or 1), and the `st.error` banner if one was shown. -/
structure GenOutcome where
  text : String
  cache : List (String × String)
  upstream_calls : Nat
  error_message : Option String
deriving Repr, DecidableEq

/-- `generate_design_idea` (app.py lines 33–79).  Consults the cache; on a
miss calls the model once; stores and returns non-empty response text; on
an exception shows `st.error` and returns the fallback; on empty response
text returns the fallback without a banner. -/
def generate_design_idea (model : String → Except String String)
    (cache : List (String × String))
    (style size rooms preferences : String) : GenOutcome :=
  let cache_key := get_cache_key style size rooms preferences
  match cacheLookup cache cache_key with
  | some v => ⟨v, cache, 0, none⟩
  | none =>
    let prompt := build_prompt style size rooms preferences
    match model prompt with
    | Except.ok t =>
      if t = "" then ⟨fallback_content style size rooms, cache, 1, none⟩
      else ⟨t, (cache_key, t) :: cache, 1, none⟩
    | Except.error e =>
      ⟨fallback_content style size rooms, cache, 1,
        some ("Error generating design: " ++ e)⟩

/-- `charsStartWith n h` is true iff char list `n` is an initial segment
of `h` (helper for the Python substring test `a in b`). -/
def charsStartWith : List Char → List Char → Bool
  | [], _ => true
  | _ :: _, [] => false
  | a :: as, b :: bs => a = b && charsStartWith as bs

/-- `charsContain n h` is true iff `n` occurs contiguously inside `h`. -/
def charsContain : List Char → List Char → Bool
  | needle, [] => charsStartWith needle []
  | needle, c :: rest => charsStartWith needle (c :: rest) || charsContain needle rest

/-- Python's substring containment `needle in haystack` on strings. -/
def strContains (needle haystack : String) : Bool :=
  charsContain needle.data haystack.data

/-- The curated `style_images` dict of `fetch_design_image`
(app.py lines 83–90), in Python dict insertion/iteration order. -/
def style_images : List (String × String) :=
  [("Modern", "https://images.unsplash.com/photo-1507089947368-19c1da9775ae?auto=format&fit=crop&w=800&q=80"),
   ("Rustic", "https://images.unsplash.com/photo-1460518451285-97b6aa326961?auto=format&fit=crop&w=800&q=80"),
   ("Traditional", "https://images.unsplash.com/photo-1512918728675-ed5a9ecdebfd?auto=format&fit=crop&w=800&q=80"),
   ("Minimalist", "https://images.unsplash.com/photo-1519125323398-675f0ddb6308?auto=format&fit=crop&w=800&q=80"),
   ("Luxury", "https://images.unsplash.com/photo-1505691938895-1758d7feb511?auto=format&fit=crop&w=800&q=80")]

/-- The default fallback image URL of `fetch_design_image` (app.py line 96). -/
def default_image : String :=
  "https://images.unsplash.com/photo-1506744038136-46273834b3fb?auto=format&fit=crop&w=800&q=80"

/-- The `for key in style_images` loop (app.py lines 92–94): first key whose
lowercase form is a substring of the lowercase style wins. -/
def style_match_loop : List (String × String) → String → Option String
  | [], _ => none
  | (key, url) :: rest, style =>
    if strContains (pyLower key) (pyLower style) then some url
    else style_match_loop rest style

/-- `fetch_design_image` (app.py lines 81–96). -/
def fetch_design_image (style : String) : String :=
  match style_match_loop style_images style with
  | some url => url
  | none => default_image

/-- The request parameters sent to the Unsplash search endpoint
(app.py lines 106–111). -/
structure UnsplashRequest where
  query : String
  per_page : Nat
  orientation : String
  client_id : String
deriving Repr, DecidableEq

/-- Result of one call to `fetch_unsplash_images`: the returned URL list,
the `st.warning` banner if one was shown, and how many HTTP requests were
issued (0 or 1). -/
structure FetchOutcome where
  urls : List String
  warning : Option String
  upstream_calls : Nat
deriving Repr, DecidableEq

/-- `fetch_unsplash_images` (app.py lines 100–121).  `access_key` models
`os.getenv("UNSPLASH_ACCESS_KEY")`; `service` models the   `requests.get`
call plus JSON decoding (`.ok none` = body without a `"results"` field). -/
def fetch_unsplash_images (access_key : Option String)
    (service : UnsplashRequest → Except String (Option (List String)))
    (query : String) (num_images : Nat) : FetchOutcome :=
  match access_key with
  | none =>
    ⟨[], some "Unsplash Access Key not found. Please set the UNSPLASH_ACCESS_KEY environment variable.", 0⟩
  | some k =>
    match service ⟨query, num_images, "landscape", k⟩ with
    | Except.ok (some urls) => ⟨urls, none, 1⟩
    | Except.ok none => ⟨[], none, 1⟩
    | Except.error e => ⟨[], some ("Error fetching images: " ++ e), 1⟩

/-- A per-room customization record (`st.session_state.room_details`
entries, app.py line 152). -/
structure RoomDetail where
  type : String
  size : String
  style : String
  features : String
deriving Repr, DecidableEq

/-- The "Add Room" button handler (app.py lines 151–153): appends a default
room and a `False` removal flag. -/
def add_room (s : List RoomDetail × List Bool) : List RoomDetail × List Bool :=
  (s.1 ++ [⟨"Bedroom", "", "", ""⟩], s.2 ++ [false])

/-- The removal checkbox writing `st.session_state.remove_room_flags[idx]`
(app.py line 187) with the box ticked. -/
def set_remove_flag (flags : List Bool) (idx : Nat) : List Bool :=
  flags.set idx true

/-- Python `list.pop(i)`: remove the element at index `i`. -/
def listPop {α : Type} (xs : List α) (i : Nat) : List α :=
  xs.take i ++ xs.drop (i + 1)

/-- The deferred-deletion loop (app.py lines 204–207):
`for idx in reversed(range(len(remove_room_flags)))`, popping both lists at
`idx` whenever the flag is set.  The `Nat` argument is the loop counter
(`idx + 1` at entry to an iteration handling `idx`). -/
def remove_flagged_loop :
    List RoomDetail → List Bool → Nat → List RoomDetail × List Bool
  | details, flags, 0 => (details, flags)
  | details, flags, i + 1 =>
    if flags.getD i false then
      remove_flagged_loop (listPop details i) (listPop flags i) i
    else
      remove_flagged_loop details flags i

/-- The whole deferred-deletion pass run at submission (app.py lines 202–207). -/
def remove_flagged_rooms (details : List RoomDetail) (flags : List Bool) :
    List RoomDetail × List Bool :=
  remove_flagged_loop details flags flags.length

/-- One line of the room-details string (app.py lines 216–218). -/
def room_detail_line (r : RoomDetail) : String :=
  "- " ++ r.type ++ ": Size " ++ r.size ++ ", Style " ++ r.style ++
  ", Features: " ++ r.features

/-- `room_details_str = "\n".join(...)` (app.py lines 216–218). -/
def build_room_details_str (details : List RoomDetail) : String :=
  String.intercalate "\n" (details.map room_detail_line)

/-- The flattened preference string built in `main` (app.py lines 219–227).
Optional parts (`extras`, `amenities`, `advanced_layout`, room details) are
appended only when truthy, exactly as the Python `if` chain does. -/
def build_preferences (budget priority extras : String)
    (amenities : List String) (advanced_layout room_details_str : String) :
    String :=
  let p := "Budget: " ++ budget ++ ", Priority: " ++ priority
  let p := if extras = "" then p else p ++ ", Extras: " ++ extras
  let p := if amenities = [] then p
    else p ++ ", Amenities: " ++ String.intercalate ", " amenities
  let p := if advanced_layout = "" then p
    else p ++ ", Advanced Layout: " ++ advanced_layout
  if room_details_str = "" then p
  else p ++ "\nRoom Details:\n" ++ room_details_str

/-- The Unsplash search query built in `main` (app.py lines 233–236),
including the final `.strip()`. -/
def build_image_query (style size rooms extras : String)
    (amenities : List String) (room_details_str : String) : String :=
  let q := style ++ " house " ++ size ++ " " ++ rooms ++ " rooms " ++ extras ++
    " " ++ (if amenities = [] then "" else String.intercalate ", " amenities) ++ " "
  let q := if room_details_str = "" then q
    else q ++ room_details_str.replace "\n" " "
  q.trim

/-- Outcome of the `if submitted:` blocks of `main` (app.py lines 202–236):
whether the "Please complete all required fields" warning fired, the number
of downstream calls to each service, the produced design text and image
URLs (absent when validation failed), and the session lists and cache after
the submission. -/
structure SubmitOutcome where
  warned_incomplete : Bool
  gen_calls : Nat
  img_calls : Nat
  design : Option String
  images : Option (List String)
  room_details : List RoomDetail
  remove_room_flags : List Bool
  design_cache : List (String × String)
deriving Repr, DecidableEq

/-- The submission path of `main` (app.py lines 202–236): apply flagged
room deletions, validate `all([style, size, rooms])`, and on success build
the preference string, generate the design, and fetch images. -/
def submit_form (model : String → Except String String)
    (access_key : Option String)
    (service : UnsplashRequest → Except String (Option (List String)))
    (cache : List (String × String))
    (details : List RoomDetail) (flags : List Bool)
    (style size rooms extras : String) (amenities : List String)
    (budget priority advanced_layout : String) : SubmitOutcome :=
  let s := remove_flagged_rooms details flags
  let details := s.1
  let flags := s.2
  if style = "" ∨ size = "" ∨ rooms = "" then
    ⟨true, 0, 0, none, none, details, flags, cache⟩
  else
    let room_details_str := build_room_details_str details
    let preferences :=
      build_preferences budget priority extras amenities advanced_layout
        room_details_str
    let g := generate_design_idea model cache style size rooms preferences
    let image_query :=
      build_image_query style size rooms extras amenities room_details_str
    let f := fetch_unsplash_images access_key service image_query 3
    ⟨false, g.upstream_calls, f.upstream_calls, some g.text, some f.urls,
      details, flags, g.cache⟩

/-- `containsLiteral h n` states that the literal string `n` occurs
contiguously inside `h`. -/
def containsLiteral (haystack needle : String) : Prop :=
  ∃ p q : String, haystack = p ++ needle ++ q

/-- The part of the preference string that depends on `extras`
(proof-side decomposition of `build_preferences`; this is the value of the
Python accumulator after the `if extras:` statement). -/
def extras_part (budget priority extras : String) : String :=
  if extras = "" then "Budget: " ++ budget ++ ", Priority: " ++ priority
  else "Budget: " ++ budget ++ ", Priority: " ++ priority ++ ", Extras: " ++ extras

/-- The part of the preference string appended after the `extras` field
(proof-side decomposition of `build_preferences`). -/
def pref_suffix (amenities : List String)
    (advanced_layout room_details_str : String) : String :=
  (if amenities = [] then ""
    else ", Amenities: " ++ String.intercalate ", " amenities) ++
  (if advanced_layout = "" then ""
    else ", Advanced Layout: " ++ advanced_layout) ++
  (if room_details_str = "" then ""
    else "\nRoom Details:\n" ++ room_details_str)

/-- A room value used for concrete witness instances. -/
def sampleRoom : RoomDetail :=
  ⟨"Kitchen", "12x14 ft", "Cozy", "island"⟩

/-- Helper: `n` occurs in `a ++ n` (at the end). -/
theorem containsLiteral_tail (a n : String) : containsLiteral (a ++ n) n :=
  ⟨a, "", by rw [String.append_empty]⟩

/-- Helper: an occurrence inside `a` is an occurrence inside `a ++ b`. -/
theorem containsLiteral_append_right (a b n : String)
    (h : containsLiteral a n) : containsLiteral (a ++ b) n := by
  obtain ⟨p, q, rfl⟩ := h
  exact ⟨p, q ++ b, by rw [String.append_assoc (p ++ n) q b]⟩

/-- Helper: `listPop` at an in-range index shortens a list by one. -/
theorem listPop_length {α : Type} (xs : List α) (i : Nat) (h : i < xs.length) :
    (listPop xs i).length = xs.length - 1 := by
  simp only [listPop, List.length_append, List.length_take, List.length_drop]
  omega

/-- Helper: the deferred-deletion loop keeps the two session lists the same
length, provided they start out the same length and the loop counter is in
range. -/
theorem remove_flagged_loop_length (i : Nat) :
    ∀ (details : List RoomDetail) (flags : List Bool),
      details.length = flags.length → i ≤ flags.length →
      (remove_flagged_loop details flags i).1.length =
        (remove_flagged_loop details flags i).2.length := by
  induction i with
  | zero =>
    intro details flags h _
    simpa [remove_flagged_loop] using h
  | succ n ih =>
    intro details flags h hle
    have hnf : n < flags.length := Nat.lt_of_lt_of_le (Nat.lt_succ_self n) hle
    have hnd : n < details.length := by omega
    by_cases hf : flags.getD n false
    · simp only [remove_flagged_loop, if_pos hf]
      apply ih
      · rw [listPop_length _ _ hnd, listPop_length _ _ hnf]; omega
      · rw [listPop_length _ _ hnf]; omega
    · simp only [remove_flagged_loop, if_neg hf]
      exact ih details flags h (Nat.le_of_succ_le hle)

/-- C5: room deletions flagged during editing are applied only at
submission time, in descending index order: starting from three added
rooms (flags all `False`), flagging indices 0 and 2 leaves the room list
untouched, and the submission-time pass removes exactly those two rooms,
leaving the original index-1 room with its fields intact. -/
theorem deferred_room_deletion (r0 r1 r2 : RoomDetail) :
    (add_room (add_room (add_room ([], [])))).2 = [false, false, false] ∧
    set_remove_flag (set_remove_flag [false, false, false] 0) 2 =
      [true, false, true] ∧
    remove_flagged_rooms [r0, r1, r2]
        (set_remove_flag (set_remove_flag [false, false, false] 0) 2) =
      ([r1], [false]) :=
  ⟨rfl, rfl, rfl⟩

/-- C6: the deletion-flag list always has the same length as the
room-detail list: both appending a room and applying the flagged deletions
at submission keep the two sequences in lock-step. -/
theorem room_flags_lockstep (details : List RoomDetail) (flags : List Bool)
    (h : details.length = flags.length) :
    (add_room (details, flags)).1.length = (add_room (details, flags)).2.length ∧
    (remove_flagged_rooms details flags).1.length =
      (remove_flagged_rooms details flags).2.length := by
  constructor
  · simp [add_room, h]
  · exact remove_flagged_loop_length flags.length details flags h (Nat.le_refl _)

/-- Witness for C6 at a concrete one-room state. -/
theorem room_flags_lockstep_witness :
    (add_room ([sampleRoom], [true])).1.length =
      (add_room ([sampleRoom], [true])).2.length ∧
    (remove_flagged_rooms [sampleRoom] [true]).1.length =
      (remove_flagged_rooms [sampleRoom] [true]).2.length :=
  room_flags_lockstep [sampleRoom] [true] rfl

/-- C2: when style, size, or rooms is empty, the submission path reports
the "Please complete all required fields" warning and performs no
downstream call: neither the text-generation service nor the image-search
service is invoked, and no design or image set is produced. -/
theorem validation_blocks_downstream
    (model : String → Except String String) (access_key : Option String)
    (service : UnsplashRequest → Except String (Option (List String)))
    (cache : List (String × String))
    (details : List RoomDetail) (flags : List Bool)
    (style size rooms extras : String) (amenities : List String)
    (budget priority advanced_layout : String)
    (h : style = "" ∨ size = "" ∨ rooms = "") :
    (submit_form model access_key service cache details flags style size
        rooms extras amenities budget priority advanced_layout).warned_incomplete
      = true ∧
    (submit_form model access_key service cache details flags style size
        rooms extras amenities budget priority advanced_layout).gen_calls = 0 ∧
    (submit_form model access_key service cache details flags style size
        rooms extras amenities budget priority advanced_layout).img_calls = 0 ∧
    (submit_form model access_key service cache details flags style size
        rooms extras amenities budget priority advanced_layout).design = none ∧
    (submit_form model access_key service cache details flags style size
        rooms extras amenities budget priority advanced_layout).images = none := by
  simp [submit_form, if_pos h]

/-- Witness for C2: an empty style with the other fields filled in. -/
theorem validation_blocks_downstream_witness :
    (submit_form (fun _ => Except.ok "text") none (fun _ => Except.ok none)
        [] [] [] "" "2000 sq ft" "3" "" [] "Economy" "Function" "").warned_incomplete
      = true ∧
    (submit_form (fun _ => Except.ok "text") none (fun _ => Except.ok none)
        [] [] [] "" "2000 sq ft" "3" "" [] "Economy" "Function" "").gen_calls = 0 ∧
    (submit_form (fun _ => Except.ok "text") none (fun _ => Except.ok none)
        [] [] [] "" "2000 sq ft" "3" "" [] "Economy" "Function" "").img_calls = 0 ∧
    (submit_form (fun _ => Except.ok "text") none (fun _ => Except.ok none)
        [] [] [] "" "2000 sq ft" "3" "" [] "Economy" "Function" "").design = none ∧
    (submit_form (fun _ => Except.ok "text") none (fun _ => Except.ok none)
        [] [] [] "" "2000 sq ft" "3" "" [] "Economy" "Function" "").images = none :=
  validation_blocks_downstream (fun _ => Except.ok "text") none
    (fun _ => Except.ok none) [] [] [] "" "2000 sq ft" "3" "" []
    "Economy" "Function" "" (Or.inl rfl)

/-- C1: for any inputs not yet in the session cache, if the upstream model
returns non-empty text for the generated prompt, then of two consecutive
identical calls the first issues exactly one upstream call and the second
issues none (a cache hit that bypasses the upstream service), the two
calls together issue exactly one upstream call, and both return the same
text. -/
theorem cache_single_upstream_call
    (model : String → Except String String) (cache : List (String × String))
    (style size rooms preferences t : String)
    (hmiss : cacheLookup cache (get_cache_key style size rooms preferences) = none)
    (hok : model (build_prompt style size rooms preferences) = Except.ok t)
    (hne : t ≠ "") :
    (generate_design_idea model cache style size rooms preferences).upstream_calls
      = 1 ∧
    (generate_design_idea model
        (generate_design_idea model cache style size rooms preferences).cache
        style size rooms preferences).upstream_calls = 0 ∧
    (generate_design_idea model cache style size rooms preferences).upstream_calls
      + (generate_design_idea model
          (generate_design_idea model cache style size rooms preferences).cache
          style size rooms preferences).upstream_calls = 1 ∧
    (generate_design_idea model cache style size rooms preferences).text = t ∧
    (generate_design_idea model
        (generate_design_idea model cache style size rooms preferences).cache
        style size rooms preferences).text
      = (generate_design_idea model cache style size rooms preferences).text := by
  simp [generate_design_idea, hmiss, hok, hne, cacheLookup]

/-- Witness for C1: a fresh session, a model that answers "A cozy plan.". -/
theorem cache_single_upstream_call_witness :
    (generate_design_idea (fun _ => Except.ok "A cozy plan.") []
        "Modern" "2000 sq ft" "3" "Budget: Economy, Priority: Function").upstream_calls
      = 1 ∧
    (generate_design_idea (fun _ => Except.ok "A cozy plan.")
        (generate_design_idea (fun _ => Except.ok "A cozy plan.") []
          "Modern" "2000 sq ft" "3" "Budget: Economy, Priority: Function").cache
        "Modern" "2000 sq ft" "3" "Budget: Economy, Priority: Function").upstream_calls
      = 0 ∧
    (generate_design_idea (fun _ => Except.ok "A cozy plan.") []
        "Modern" "2000 sq ft" "3" "Budget: Economy, Priority: Function").upstream_calls
      + (generate_design_idea (fun _ => Except.ok "A cozy plan.")
          (generate_design_idea (fun _ => Except.ok "A cozy plan.") []
            "Modern" "2000 sq ft" "3" "Budget: Economy, Priority: Function").cache
          "Modern" "2000 sq ft" "3" "Budget: Economy, Priority: Function").upstream_calls
      = 1 ∧
    (generate_design_idea (fun _ => Except.ok "A cozy plan.") []
        "Modern" "2000 sq ft" "3" "Budget: Economy, Priority: Function").text
      = "A cozy plan." ∧
    (generate_design_idea (fun _ => Except.ok "A cozy plan.")
        (generate_design_idea (fun _ => Except.ok "A cozy plan.") []
          "Modern" "2000 sq ft" "3" "Budget: Economy, Priority: Function").cache
        "Modern" "2000 sq ft" "3" "Budget: Economy, Priority: Function").text
      = (generate_design_idea (fun _ => Except.ok "A cozy plan.") []
          "Modern" "2000 sq ft" "3" "Budget: Economy, Priority: Function").text :=
  cache_single_upstream_call (fun _ => Except.ok "A cozy plan.") []
    "Modern" "2000 sq ft" "3" "Budget: Economy, Priority: Function"
    "A cozy plan." rfl rfl (by decide)

/-- C3: whenever the upstream call fails (exception) or returns empty
text, `generate_design_idea` returns the deterministic fallback Markdown
document `fallback_content`, a pure function of the local inputs; the
fallback is non-empty and contains the literal input style, size, and
room count. -/
theorem fallback_on_upstream_failure
    (model : String → Except String String) (cache : List (String × String))
    (style size rooms preferences : String)
    (hmiss : cacheLookup cache (get_cache_key style size rooms preferences) = none)
    (hfail : (∃ e, model (build_prompt style size rooms preferences) = Except.error e) ∨
      model (build_prompt style size rooms preferences) = Except.ok "") :
    (generate_design_idea model cache style size rooms preferences).text =
      fallback_content style size rooms ∧
    fallback_content style size rooms ≠ "" ∧
    containsLiteral (fallback_content style size rooms) style ∧
    containsLiteral (fallback_content style size rooms) size ∧
    containsLiteral (fallback_content style size rooms) rooms := by
  refine ⟨?_, ?_, ?_, ?_, ?_⟩
  · rcases hfail with ⟨e, he⟩ | he <;> simp [generate_design_idea, hmiss, he]
  · intro h
    have hl := congrArg String.length h
    simp only [fallback_content, String.length_append] at hl
    have hpos : 0 < "\n    ## ".length := by decide
    have hz : ("" : String).length = 0 := rfl
    rw [hz] at hl
    omega
  · unfold fallback_content
    repeat first
      | exact containsLiteral_tail _ _
      | apply containsLiteral_append_right
  · unfold fallback_content
    repeat first
      | exact containsLiteral_tail _ _
      | apply containsLiteral_append_right
  · unfold fallback_content
    repeat first
      | exact containsLiteral_tail _ _
      | apply containsLiteral_append_right

/-- Witness for C3: a model that raises, on a fresh session. -/
theorem fallback_on_upstream_failure_witness :
    (generate_design_idea (fun _ => Except.error "boom") []
        "Rustic" "1500 sq ft" "4" "").text =
      fallback_content "Rustic" "1500 sq ft" "4" ∧
    fallback_content "Rustic" "1500 sq ft" "4" ≠ "" ∧
    containsLiteral (fallback_content "Rustic" "1500 sq ft" "4") "Rustic" ∧
    containsLiteral (fallback_content "Rustic" "1500 sq ft" "4") "1500 sq ft" ∧
    containsLiteral (fallback_content "Rustic" "1500 sq ft" "4") "4" :=
  fallback_on_upstream_failure (fun _ => Except.error "boom") []
    "Rustic" "1500 sq ft" "4" "" rfl (Or.inl ⟨"boom", rfl⟩)

/-- Helper: on a cache miss, `generate_design_idea` issues exactly one
upstream call, whatever the model returns. -/
theorem gen_calls_on_miss
    (model : String → Except String String) (cache : List (String × String))
    (style size rooms preferences : String)
    (hmiss : cacheLookup cache (get_cache_key style size rooms preferences) = none) :
    (generate_design_idea model cache style size rooms preferences).upstream_calls
      = 1 := by
  cases hm : model (build_prompt style size rooms preferences) with
  | error e => simp [generate_design_idea, hmiss, hm]
  | ok t =>
    by_cases ht : t = "" <;> simp [generate_design_idea, hmiss, hm, ht]

/-- C10: when the upstream call fails or returns empty output, the design
cache is left unchanged — the fallback text is never stored under the
cache key — so a subsequent identical request issues another upstream call
rather than hitting the cache. -/
theorem failure_leaves_cache_unchanged
    (model : String → Except String String) (cache : List (String × String))
    (style size rooms preferences : String)
    (hmiss : cacheLookup cache (get_cache_key style size rooms preferences) = none)
    (hfail : (∃ e, model (build_prompt style size rooms preferences) = Except.error e) ∨
      model (build_prompt style size rooms preferences) = Except.ok "") :
    (generate_design_idea model cache style size rooms preferences).cache = cache ∧
    (generate_design_idea model
        (generate_design_idea model cache style size rooms preferences).cache
        style size rooms preferences).upstream_calls = 1 := by
  have hc : (generate_design_idea model cache style size rooms preferences).cache
      = cache := by
    rcases hfail with ⟨e, he⟩ | he <;> simp [generate_design_idea, hmiss, he]
  refine ⟨hc, ?_⟩
  rw [hc]
  exact gen_calls_on_miss model cache style size rooms preferences hmiss

/-- Witness for C10: a model that raises, on a fresh session. -/
theorem failure_leaves_cache_unchanged_witness :
    (generate_design_idea (fun _ => Except.error "down") []
        "Modern" "2000 sq ft" "3" "").cache = [] ∧
    (generate_design_idea (fun _ => Except.error "down")
        (generate_design_idea (fun _ => Except.error "down") []
          "Modern" "2000 sq ft" "3" "").cache
        "Modern" "2000 sq ft" "3" "").upstream_calls = 1 :=
  failure_leaves_cache_unchanged (fun _ => Except.error "down") []
    "Modern" "2000 sq ft" "3" "" rfl (Or.inl ⟨"down", rfl⟩)

/-- C4: every upstream failure is recovered locally.  On a text-generation
exception the generator returns the deterministic fallback document as an
ordinary value (the cache untouched, the only user-visible artifact being
the handled "Error generating design: …" banner), and on an image-search
exception the fetcher returns the empty list with the handled
"Error fetching images: …" banner; neither function propagates an
exceptional outcome — both always return plain values. -/
theorem upstream_failures_recovered
    (model : String → Except String String) (cache : List (String × String))
    (style size rooms preferences : String)
    (service : UnsplashRequest → Except String (Option (List String)))
    (query k : String) (n : Nat) (e1 e2 : String)
    (hmiss : cacheLookup cache (get_cache_key style size rooms preferences) = none)
    (h1 : model (build_prompt style size rooms preferences) = Except.error e1)
    (h2 : service ⟨query, n, "landscape", k⟩ = Except.error e2) :
    generate_design_idea model cache style size rooms preferences =
      ⟨fallback_content style size rooms, cache, 1,
        some ("Error generating design: " ++ e1)⟩ ∧
    fetch_unsplash_images (some k) service query n =
      ⟨[], some ("Error fetching images: " ++ e2), 1⟩ := by
  constructor
  · simp [generate_design_idea, hmiss, h1]
  · simp [fetch_unsplash_images, h2]

/-- Witness for C4: both services raise, on a fresh session. -/
theorem upstream_failures_recovered_witness :
    generate_design_idea (fun _ => Except.error "timeout") []
        "Modern" "2000 sq ft" "3" "" =
      ⟨fallback_content "Modern" "2000 sq ft" "3", [], 1,
        some ("Error generating design: " ++ "timeout")⟩ ∧
    fetch_unsplash_images (some "key") (fun _ => Except.error "refused")
        "Modern house" 3 =
      ⟨[], some ("Error fetching images: " ++ "refused"), 1⟩ :=
  upstream_failures_recovered (fun _ => Except.error "timeout") []
    "Modern" "2000 sq ft" "3" "" (fun _ => Except.error "refused")
    "Modern house" "key" 3 "timeout" "refused" rfl rfl rfl

/-- C7: the live image fetcher returns the ordered list of result URLs on
success; it returns the empty list when the credential is absent (without
calling the service), when the service call raises, or when the response
lacks a results field — in each case returning normally rather than
propagating a failure. -/
theorem unsplash_error_handling
    (service : UnsplashRequest → Except String (Option (List String)))
    (query : String) (n : Nat) (k e : String) (urls : List String) :
    fetch_unsplash_images none service query n =
      ⟨[], some "Unsplash Access Key not found. Please set the UNSPLASH_ACCESS_KEY environment variable.", 0⟩ ∧
    (service ⟨query, n, "landscape", k⟩ = Except.error e →
      fetch_unsplash_images (some k) service query n =
        ⟨[], some ("Error fetching images: " ++ e), 1⟩) ∧
    (service ⟨query, n, "landscape", k⟩ = Except.ok none →
      fetch_unsplash_images (some k) service query n = ⟨[], none, 1⟩) ∧
    (service ⟨query, n, "landscape", k⟩ = Except.ok (some urls) →
      fetch_unsplash_images (some k) service query n = ⟨urls, none, 1⟩) := by
  refine ⟨rfl, ?_, ?_, ?_⟩ <;> intro h <;> simp [fetch_unsplash_images, h]

/-- Witness for C7: one concrete service per scenario. -/
theorem unsplash_error_handling_witness :
    fetch_unsplash_images none (fun _ => Except.ok none) "q" 3 =
      ⟨[], some "Unsplash Access Key not found. Please set the UNSPLASH_ACCESS_KEY environment variable.", 0⟩ ∧
    fetch_unsplash_images (some "k") (fun _ => Except.error "down") "q" 3 =
      ⟨[], some ("Error fetching images: " ++ "down"), 1⟩ ∧
    fetch_unsplash_images (some "k") (fun _ => Except.ok none) "q" 3 =
      ⟨[], none, 1⟩ ∧
    fetch_unsplash_images (some "k") (fun _ => Except.ok (some ["u1", "u2"])) "q" 3 =
      ⟨["u1", "u2"], none, 1⟩ :=
  ⟨(unsplash_error_handling (fun _ => Except.ok none) "q" 3 "k" "down" []).1,
   (unsplash_error_handling (fun _ => Except.error "down") "q" 3 "k" "down" []).2.1 rfl,
   (unsplash_error_handling (fun _ => Except.ok none) "q" 3 "k" "down" []).2.2.1 rfl,
   (unsplash_error_handling (fun _ => Except.ok (some ["u1", "u2"])) "q" 3 "k" "down"
      ["u1", "u2"]).2.2.2 rfl⟩

/-- C8: the static image lookup matches the style case-insensitively by
substring containment against the table keys in iteration order, returning
the first match, and a fixed default when none match: "Modern Farmhouse"
resolves to the "Modern" table entry, "Victorian" to the default; in
general any style containing "modern" resolves to the first table entry,
and any style matching no key resolves to the default. -/
theorem static_image_lookup (style1 style2 : String)
    (hnone : ∀ p ∈ style_images,
      strContains (pyLower p.1) (pyLower style1) = false)
    (hfirst : strContains (pyLower "Modern") (pyLower style2) = true) :
    fetch_design_image "Modern Farmhouse" =
      "https://images.unsplash.com/photo-1507089947368-19c1da9775ae?auto=format&fit=crop&w=800&q=80" ∧
    fetch_design_image "Victorian" = default_image ∧
    fetch_design_image style1 = default_image ∧
    fetch_design_image style2 =
      "https://images.unsplash.com/photo-1507089947368-19c1da9775ae?auto=format&fit=crop&w=800&q=80" := by
  refine ⟨by decide, by decide, ?_, ?_⟩
  · have h1 := hnone ("Modern",
      "https://images.unsplash.com/photo-1507089947368-19c1da9775ae?auto=format&fit=crop&w=800&q=80")
      (by simp [style_images])
    have h2 := hnone ("Rustic",
      "https://images.unsplash.com/photo-1460518451285-97b6aa326961?auto=format&fit=crop&w=800&q=80")
      (by simp [style_images])
    have h3 := hnone ("Traditional",
      "https://images.unsplash.com/photo-1512918728675-ed5a9ecdebfd?auto=format&fit=crop&w=800&q=80")
      (by simp [style_images])
    have h4 := hnone ("Minimalist",
      "https://images.unsplash.com/photo-1519125323398-675f0ddb6308?auto=format&fit=crop&w=800&q=80")
      (by simp [style_images])
    have h5 := hnone ("Luxury",
      "https://images.unsplash.com/photo-1505691938895-1758d7feb511?auto=format&fit=crop&w=800&q=80")
      (by simp [style_images])
    simp [fetch_design_image, style_match_loop, style_images, h1, h2, h3, h4, h5]
  · simp [fetch_design_image, style_match_loop, style_images, hfirst]

/-- Witness for C8 at the spec's two sample styles. -/
theorem static_image_lookup_witness :
    fetch_design_image "Modern Farmhouse" =
      "https://images.unsplash.com/photo-1507089947368-19c1da9775ae?auto=format&fit=crop&w=800&q=80" ∧
    fetch_design_image "Victorian" = default_image ∧
    fetch_design_image "Victorian" = default_image ∧
    fetch_design_image "Modern Farmhouse" =
      "https://images.unsplash.com/photo-1507089947368-19c1da9775ae?auto=format&fit=crop&w=800&q=80" :=
  static_image_lookup "Victorian" "Modern Farmhouse" (by decide) (by decide)

/-- Helper: `build_preferences` splits into the extras-dependent part
followed by a suffix that does not depend on `extras`. -/
theorem build_preferences_eq (budget priority extras : String)
    (amenities : List String) (advanced_layout room_details_str : String) :
    build_preferences budget priority extras amenities advanced_layout
        room_details_str =
      extras_part budget priority extras ++
        pref_suffix amenities advanced_layout room_details_str := by
  unfold build_preferences extras_part pref_suffix
  by_cases h1 : amenities = [] <;> by_cases h2 : advanced_layout = "" <;>
    by_cases h3 : room_details_str = "" <;> by_cases he : extras = "" <;>
      simp [h1, h2, h3, he] <;>
        (apply String.ext; simp [List.append_assoc])

/-- Helper: the extras-dependent part of the preference string determines
the extras field. -/
theorem extras_part_inj (budget priority e1 e2 : String)
    (h : extras_part budget priority e1 = extras_part budget priority e2) :
    e1 = e2 := by
  by_cases h1 : e1 = "" <;> by_cases h2 : e2 = ""
  · rw [h1, h2]
  · exfalso
    rw [extras_part, extras_part, if_pos h1, if_neg h2] at h
    have hl := congrArg String.length h
    simp only [String.length_append] at hl
    have hpos : 0 < ", Extras: ".length := by decide
    omega
  · exfalso
    rw [extras_part, extras_part, if_neg h1, if_pos h2] at h
    have hl := congrArg String.length h
    simp only [String.length_append] at hl
    have hpos : 0 < ", Extras: ".length := by decide
    omega
  · rw [extras_part, extras_part, if_neg h1, if_neg h2] at h
    have hd := congrArg String.data h
    simp only [String.data_append, List.append_assoc,
      List.append_cancel_left_eq] at hd
    exact String.ext hd

/-- C9: two submissions identical except in the extras field (including
one with extras absent/empty and the other non-empty) derive different
cache keys, hence occupy independent cache entries; and identical inputs
always derive the same key. -/
theorem extras_cache_key_distinct
    (style size rooms budget priority : String) (amenities : List String)
    (advanced_layout room_details_str : String) (e1 e2 : String) :
    (e1 ≠ e2 →
      get_cache_key style size rooms
          (build_preferences budget priority e1 amenities advanced_layout
            room_details_str) ≠
        get_cache_key style size rooms
          (build_preferences budget priority e2 amenities advanced_layout
            room_details_str)) ∧
    (e1 = e2 →
      get_cache_key style size rooms
          (build_preferences budget priority e1 amenities advanced_layout
            room_details_str) =
        get_cache_key style size rooms
          (build_preferences budget priority e2 amenities advanced_layout
            room_details_str)) := by
  constructor
  · intro hne he
    apply hne
    apply extras_part_inj budget priority e1 e2
    rw [build_preferences_eq, build_preferences_eq] at he
    have hd := congrArg String.data he
    simp only [get_cache_key, String.data_append, List.append_assoc,
      List.append_cancel_left_eq, List.append_cancel_right_eq] at hd
    exact String.ext hd
  · intro he
    rw [he]

/-- Witness for C9: empty versus non-empty extras on otherwise identical
inputs give different keys; equal extras give the same key. -/
theorem extras_cache_key_distinct_witness :
    get_cache_key "Modern" "2000 sq ft" "3"
        (build_preferences "Economy" "Function" "" [] "" "") ≠
      get_cache_key "Modern" "2000 sq ft" "3"
        (build_preferences "Economy" "Function" "garden pond" [] "" "") ∧
    get_cache_key "Modern" "2000 sq ft" "3"
        (build_preferences "Economy" "Function" "garden pond" [] "" "") =
      get_cache_key "Modern" "2000 sq ft" "3"
        (build_preferences "Economy" "Function" "garden pond" [] "" "") :=
  ⟨(extras_cache_key_distinct "Modern" "2000 sq ft" "3" "Economy" "Function"
      [] "" "" "" "garden pond").1 (by decide),
   (extras_cache_key_distinct "Modern" "2000 sq ft" "3" "Economy" "Function"
      [] "" "" "garden pond" "garden pond").2 rfl⟩
